import Mathlib

/-!
# gcoreclient `instance` commands: request builder and task resolvers

A shallow embedding of `gcoreclient/instances/instances.go`.

* Go strings are Lean `String`s, `[]byte` is `List UInt8`, `[]string` is `List String`
  and `[]int` is `List Int`.
* A Go `(value, error)` return is a pair whose second component is `Option GoError`
  (`none` is `nil`).
* Calls into the SDK, the file system and the CLI library are fields of a `World`; every
  such call a function of this file makes is recorded, in order, in a list of `Effect`s.
-/

set_option autoImplicit false

namespace Gcore

/-! ## Errors -/

/-- Go `error` values, by dynamic type. -/
inductive GoError where
  /-- The type `gcorecloud.ErrDefault404`: the remote API answered "not found". -/
  | ErrDefault404 (body : String)
  /-- Any other concrete error type, given by its type name and its `Error()` text. -/
  | plain (typ : String) (msg : String)
  /-- The `*fmt.wrapError` built by `fmt.Errorf` with a `%w` verb: the formatted message
  and the wrapped error. -/
  | wrapError (msg : String) (err : GoError)
  /-- The value of `cli.NewExitError(message, exitCode)`. -/
  | exitError (message : GoError) (exitCode : Int)
  deriving DecidableEq, Repr

namespace GoError

/-- The `Error()` method. -/
def Error : GoError → String
  | ErrDefault404 body => body
  | plain _ msg => msg
  | wrapError msg _ => msg
  | exitError message _ => message.Error

/-- The `Unwrap()` method used by `errors.Unwrap`: only `fmt.Errorf`'s `%w` errors wrap. -/
def Unwrap : GoError → Option GoError
  | wrapError _ err => some err
  | _ => none

end GoError

/-- The constructor `cli.NewExitError(message, exitCode)`. -/
def NewExitError (message : GoError) (exitCode : Int) : GoError :=
  GoError.exitError message exitCode

/-! ## `encoding/base64`, `StdEncoding` -/

/-- The 64 characters of the standard alphabet of RFC 4648. -/
def encodeStd : List Char :=
  "ABCDEFGHIJKLMNOPQRSTUVWXYZabcdefghijklmnopqrstuvwxyz0123456789+/".data

/-- The alphabet character of a 6-bit value. -/
def encodeChar (v : Nat) : Char :=
  encodeStd.getD (v % 64) 'A'

/-- The character list of `base64.StdEncoding.EncodeToString`: three bytes become four
characters; a remainder of one or two bytes is padded with `=`. -/
def encodeToChars : List UInt8 → List Char
  | [] => []
  | [a] =>
      [encodeChar (a.toNat / 4), encodeChar (a.toNat % 4 * 16), '=', '=']
  | [a, b] =>
      [encodeChar (a.toNat / 4), encodeChar (a.toNat % 4 * 16 + b.toNat / 16),
       encodeChar (b.toNat % 16 * 4), '=']
  | a :: b :: c :: rest =>
      encodeChar (a.toNat / 4) :: encodeChar (a.toNat % 4 * 16 + b.toNat / 16) ::
      encodeChar (b.toNat % 16 * 4 + c.toNat / 64) :: encodeChar (c.toNat % 64) ::
      encodeToChars rest

/-- The function `base64.StdEncoding.EncodeToString`. -/
def EncodeToString (src : List UInt8) : String :=
  String.mk (encodeToChars src)

/-- The conversion `[]byte(s)`: the UTF-8 bytes of the string. -/
def bytesOf (s : String) : List UInt8 :=
  s.data.flatMap String.utf8EncodeChar

/-! ## The command line, the SDK types and the outside world -/

/-- The parsed command line, `*cli.Context`, read by flag name: `Str` is `c.String`,
`Flag` is `c.Bool`, and `Generic` is the value list held by a `cli.GenericFlag` whose
value is a `utils.EnumStringSliceValue`. -/
structure Context where
  Str : String → String
  StringSlice : String → List String
  IntSlice : String → List Int
  Flag : String → Bool
  Generic : String → List String

/-- The type `instances.CreateVolumeOpts`. -/
structure CreateVolumeOpts where
  Source : String
  BootIndex : Int
  Size : Int
  TypeName : String
  Name : String
  ImageID : String
  SnapshotID : String
  VolumeID : String
  deriving DecidableEq, Repr

/-- The type `instances.CreateNewInterfaceFloatingIPOpts`. -/
structure CreateNewInterfaceFloatingIPOpts where
  Source : String
  ExistingFloatingID : String
  deriving DecidableEq, Repr

/-- The type `instances.CreateInterfaceOpts`; `Type_` is the Go field `Type`, and the pointer field
`FloatingIP` is `none` when nil. -/
structure CreateInterfaceOpts where
  Type_ : String
  NetworkID : String
  SubnetID : String
  FloatingIP : Option CreateNewInterfaceFloatingIPOpts
  deriving DecidableEq, Repr

/-- The type `gcorecloud.ItemID`. -/
structure ItemID where
  ID : String
  deriving DecidableEq, Repr

/-- The type `instances.CreateOpts`; the `map[string]string` is a list of key/value pairs. -/
structure CreateOpts where
  Flavor : String
  Names : List String
  NameTemplates : List String
  Volumes : List CreateVolumeOpts
  Interfaces : List CreateInterfaceOpts
  SecurityGroups : List ItemID
  Keypair : String
  Password : String
  Username : String
  UserData : String
  Metadata : List (String × String)
  deriving DecidableEq, Repr

/-- The `*gcorecloud.ServiceClient` returned by `utils.BuildClient`. -/
structure ServiceClient where
  Endpoint : String
  deriving DecidableEq, Repr

/-- The `*tasks.Task` returned by `tasks.Get`. -/
structure Task where
  ID : String
  State : String
  deriving DecidableEq, Repr

/-- The `*instances.Instance` returned by `instances.Get`. -/
structure Instance where
  ID : String
  Name : String
  deriving DecidableEq, Repr

/-- The `*volumes.Volume` returned by `volumes.Get`. -/
structure Volume where
  ID : String
  Name : String
  deriving DecidableEq, Repr

/-- The `interface{}` a resolver hands to the task waiter, by dynamic type. -/
inductive Resource where
  | ofInstance (i : Instance)
  | ofVolume (v : Volume)
  deriving DecidableEq, Repr

/-- A resolver closure `func(task tasks.TaskID) (interface{}, error)`. -/
abbrev Resolver := String → Option Resource × Option GoError

/-- Everything outside `instances.go` that its functions call: the file system, the
validators and the remote API. A call that returns `(value, error)` with exactly one of
the two set is an `Except`. -/
structure World where
  /-- The call `ioutil.ReadFile`. -/
  ReadFile : String → Except GoError (List UInt8)
  /-- The call `utils.BuildClient(c, endpointName, endpointType, version)`. -/
  BuildClient : String → String → String → Except GoError ServiceClient
  /-- The call `CreateVolumeOpts.Validate`. -/
  ValidateVolume : CreateVolumeOpts → Option GoError
  /-- The call `CreateInterfaceOpts.Validate`. -/
  ValidateInterface : CreateInterfaceOpts → Option GoError
  /-- The call `CreateOpts.Validate`. -/
  ValidateCreate : CreateOpts → Option GoError
  /-- The call `gcorecloud.TranslateValidationError`. -/
  TranslateValidationError : Option GoError → Option GoError
  /-- The call `utils.StringSliceToMap`. -/
  StringSliceToMap : List String → Except GoError (List (String × String))
  /-- The call `instances.Create(client, opts).ExtractTasks()`: the task identifiers. -/
  Create : ServiceClient → CreateOpts → Except GoError (List String)
  /-- The call `tasks.Get(client, id).Extract()`. -/
  TasksGet : ServiceClient → String → Except GoError Task
  /-- The call `instances.ExtractInstanceIDFromTask`. -/
  ExtractInstanceIDFromTask : Task → Except GoError String
  /-- The call `instances.Get(client, id).Extract()`. -/
  InstancesGet : ServiceClient → String → Except GoError Instance
  /-- The call `volumes.Get(client, id).Extract()`. -/
  VolumesGet : ServiceClient → String → Except GoError Volume
  /-- The call `utils.WaitTaskAndShowResult(c, client, results, stopOnTaskError, resolver)`. -/
  WaitTaskAndShowResult : ServiceClient → List String → Bool → Resolver → Option GoError

/-- The type `instances.DeleteOpts`. -/
structure DeleteOpts where
  Volumes : List String
  DeleteFloatings : Bool
  FloatingIPs : List String
  deriving DecidableEq, Repr

/-- The calls a function makes that touch the outside, in the order made. -/
inductive Effect where
  | ReadFile (path : String)
  | BuildClient (version : String)
  | ShowAppHelp
  | ShowCommandHelp (command : String)
  | Create (client : ServiceClient) (opts : CreateOpts)
  | WaitTaskAndShowResult (client : ServiceClient) (results : List String)
  | Delete (client : ServiceClient) (instanceID : String) (opts : DeleteOpts)
  deriving DecidableEq, Repr

/-- How a Go call ends: it returns a value or it panics. -/
inductive Go (α : Type) where
  | returned (a : α)
  | panicked (msg : String)
  deriving DecidableEq, Repr

/-- The index expression `xs[idx]`, which panics out of range. -/
def goIndex {α : Type} (xs : List α) (idx : Nat) : Go α :=
  match xs[idx]? with
  | some x => .returned x
  | none => .panicked "runtime error: index out of range"

/-- Modelled from the spec: `volumes.Standard` is declared outside `src/`; the spec names
the default as the "standard" volume type. -/
def Standard : String := "standard"

/-- Modelled from the spec: `types.SubnetInterfaceType` is declared outside `src/`; the
spec calls the interface type "subnet". -/
def SubnetInterfaceType : String := "subnet"

/-- Modelled from the spec: `utils.IntFromIndex` is defined outside `src/`; a position
out of range yields the declared default and never panics. -/
def IntFromIndex (slice : List Int) (idx : Nat) (defaultValue : Int) : Int :=
  if h : idx < slice.length then slice[idx] else defaultValue

/-- Modelled from the spec: `utils.StringFromIndex` is defined outside `src/`; a position
out of range yields the declared default and never panics. -/
def StringFromIndex (slice : List String) (idx : Nat) (defaultValue : String) : String :=
  if h : idx < slice.length then slice[idx] else defaultValue

/-- Modelled from the spec: `utils.GetEnumStringSliceValue` is defined outside `src/`; it
returns the values given to the enum-constrained flag of that name. -/
def GetEnumStringSliceValue (c : Context) (name : String) : List String :=
  c.Generic name

/-! ## `instances.go` -/

/-- The function `getUserData`, with the file reads it performs. -/
def getUserData (w : World) (c : Context) : (String × Option GoError) × List Effect :=
  let userDataFile := c.Str "user-data-file"
  let userDataContent := c.Str "user-data"
  if userDataFile ≠ "" then
    match w.ReadFile userDataFile with
    | .error err => (("", some err), [Effect.ReadFile userDataFile])
    | .ok fileContent => ((EncodeToString fileContent, none), [Effect.ReadFile userDataFile])
  else if userDataContent ≠ "" then
    ((EncodeToString (bytesOf userDataContent), none), [])
  else
    (("", none), [])

/-- The closure computing `TypeName` in `getInstanceVolumes`: it indexes `volumeTypes`
behind a length test and falls back to `volumes.Standard`. -/
def volumeTypeName (volumeTypes : List String) (idx : Nat) : Go String :=
  if idx < volumeTypes.length then goIndex volumeTypes idx else .returned Standard

/-- The `for idx, s := range volumeSources` loop of `getInstanceVolumes`: `idx` is the
index of the head of the remaining sources and `res` the slice appended to so far. -/
def getInstanceVolumesLoop (w : World) (c : Context) :
    List String → Nat → List CreateVolumeOpts → Go (List CreateVolumeOpts × Option GoError)
  | [], _, res => .returned (res, none)
  | s :: rest, idx, res =>
    match volumeTypeName (GetEnumStringSliceValue c "volume-type") idx with
    | .panicked msg => .panicked msg
    | .returned typeName =>
      let opts : CreateVolumeOpts :=
        { Source := s
          BootIndex := IntFromIndex (c.IntSlice "volume-boot-index") idx 0
          Size := IntFromIndex (c.IntSlice "volume-size") idx 0
          TypeName := typeName
          Name := StringFromIndex (c.StringSlice "volume-name") idx ""
          ImageID := StringFromIndex (c.StringSlice "volume-image-id") idx ""
          SnapshotID := StringFromIndex (c.StringSlice "volume-snapshot-id") idx ""
          VolumeID := StringFromIndex (c.StringSlice "volume-volume-id") idx "" }
      match w.TranslateValidationError (w.ValidateVolume opts) with
      | some err => .returned ([], some err)
      | none => getInstanceVolumesLoop w c rest (idx + 1) (res ++ [opts])

/-- The function `getInstanceVolumes`. -/
def getInstanceVolumes (w : World) (c : Context) :
    Go (List CreateVolumeOpts × Option GoError) :=
  getInstanceVolumesLoop w c (GetEnumStringSliceValue c "volume-source") 0 []

/-- The `for idx, t := range interfaceTypes` loop of `getInterfaces`. -/
def getInterfacesLoop (w : World) (c : Context) :
    List String → Nat → List CreateInterfaceOpts → List CreateInterfaceOpts × Option GoError
  | [], _, res => (res, none)
  | t :: rest, idx, res =>
    let interfaceFloatingSources := GetEnumStringSliceValue c "interface-floating-source"
    let interfaceFloatingIPs := c.StringSlice "interface-floating-ip"
    let interfaceType := t
    let fIP : Option CreateNewInterfaceFloatingIPOpts :=
      if interfaceType = SubnetInterfaceType then
        let source := StringFromIndex interfaceFloatingSources idx ""
        if source ≠ "" then
          some { Source := StringFromIndex interfaceFloatingSources idx ""
                 ExistingFloatingID := StringFromIndex interfaceFloatingIPs idx "" }
        else none
      else none
    let opts : CreateInterfaceOpts :=
      { Type_ := interfaceType
        NetworkID := StringFromIndex (c.StringSlice "interface-network-id") idx ""
        SubnetID := StringFromIndex (c.StringSlice "interface-subnet-id") idx ""
        FloatingIP := fIP }
    match w.TranslateValidationError (w.ValidateInterface opts) with
    | some err => ([], some err)
    | none => getInterfacesLoop w c rest (idx + 1) (res ++ [opts])

/-- The function `getInterfaces`. -/
def getInterfaces (w : World) (c : Context) : List CreateInterfaceOpts × Option GoError :=
  getInterfacesLoop w c (GetEnumStringSliceValue c "interface-type") 0 []

/-- The function `getSecurityGroups`: `make([]gcorecloud.ItemID, len(securityGroups))` is
a slice of that many zero values, and the loop appends to it. -/
def getSecurityGroups (c : Context) : List ItemID :=
  let securityGroups := c.StringSlice "security-group"
  let res : List ItemID := List.replicate securityGroups.length { ID := "" }
  securityGroups.foldl (fun res s => res ++ [{ ID := s }]) res

/-- The resolver closure the create command passes to the task waiter; `%s` of a task or
resource identifier is the identifier and `%w` prints the wrapped error's text. -/
def createResolver (w : World) (clientV1 clientV2 : ServiceClient) : Resolver := fun task =>
  match w.TasksGet clientV1 task with
  | .error err =>
    (none, some (.wrapError ("cannot get task with ID: " ++ task ++ ". Error: " ++ err.Error) err))
  | .ok taskInfo =>
    match w.ExtractInstanceIDFromTask taskInfo with
    | .error err =>
      (none, some (.wrapError ("cannot retrieve volume ID from task info: " ++ err.Error) err))
    | .ok instanceID =>
      match w.VolumesGet clientV2 instanceID with
      | .error err =>
        (none, some (.wrapError
          ("cannot get volume with ID: " ++ instanceID ++ ". Error: " ++ err.Error) err))
      | .ok volume => (some (.ofVolume volume), none)

/-- The resolver closure the delete command passes to the task waiter; it ignores its
task argument and looks the captured `instanceID` up again. -/
def deleteResolver (w : World) (client : ServiceClient) (instanceID : String) : Resolver :=
  fun _ =>
    match w.VolumesGet client instanceID with
    | .ok _ =>
      (none, some (.plain "*errors.errorString"
        ("cannot delete instance with ID: " ++ instanceID)))
    | .error err =>
      match err with
      | .ErrDefault404 _ => (none, none)
      | _ => (none, some err)

/-- The struct literal `instances.CreateOpts{...}` of the create action. -/
def createOpts (c : Context) (userData : String) (instanceVolumes : List CreateVolumeOpts)
    (instanceInterfaces : List CreateInterfaceOpts) (securityGroups : List ItemID)
    (metadata : List (String × String)) : CreateOpts :=
  { Flavor := c.Str "flavor"
    Names := c.StringSlice "name"
    NameTemplates := c.StringSlice "name-template"
    Volumes := instanceVolumes
    Interfaces := instanceInterfaces
    SecurityGroups := securityGroups
    Keypair := c.Str "keypair"
    Password := c.Str "password"
    Username := c.Str "username"
    UserData := userData
    Metadata := metadata }

/-- The `Action` of `instanceCreateCommandV2`: the `error` it returns (or the panic it
ends in) and the outside calls it makes. -/
def instanceCreateCommandV2Action (w : World) (c : Context) :
    Go (Option GoError) × List Effect :=
  match w.BuildClient "instances" "" "v2" with
  | .error err =>
    (.returned (some (NewExitError err 1)), [Effect.BuildClient "v2", Effect.ShowAppHelp])
  | .ok clientV2 =>
  match w.BuildClient "instances" "" "v1" with
  | .error err =>
    (.returned (some (NewExitError err 1)),
      [Effect.BuildClient "v2", Effect.BuildClient "v1", Effect.ShowAppHelp])
  | .ok clientV1 =>
  let built := [Effect.BuildClient "v2", Effect.BuildClient "v1"]
  match getUserData w c with
  | ((_, some err), reads) =>
    (.returned (some (NewExitError err 1)), built ++ reads ++ [Effect.ShowCommandHelp "create"])
  | ((userData, none), reads) =>
  match getInstanceVolumes w c with
  | .panicked msg => (.panicked msg, built ++ reads)
  | .returned (_, some err) =>
    (.returned (some (NewExitError err 1)), built ++ reads ++ [Effect.ShowCommandHelp "create"])
  | .returned (instanceVolumes, none) =>
  match getInterfaces w c with
  | (_, some err) =>
    (.returned (some (NewExitError err 1)), built ++ reads ++ [Effect.ShowCommandHelp "create"])
  | (instanceInterfaces, none) =>
  let securityGroups := getSecurityGroups c
  match w.StringSliceToMap (c.StringSlice "metadata") with
  | .error err =>
    (.returned (some (NewExitError err 1)), built ++ reads ++ [Effect.ShowCommandHelp "create"])
  | .ok metadata =>
  let opts := createOpts c userData instanceVolumes instanceInterfaces securityGroups metadata
  match w.TranslateValidationError (w.ValidateCreate opts) with
  | some err => (.returned (some (NewExitError err 1)), built ++ reads)
  | none =>
  match w.Create clientV2 opts with
  | .error err =>
    (.returned (some (NewExitError err 1)), built ++ reads ++ [Effect.Create clientV2 opts])
  | .ok results =>
    (.returned (w.WaitTaskAndShowResult clientV2 results true (createResolver w clientV1 clientV2)),
      built ++ reads ++
        [Effect.Create clientV2 opts, Effect.WaitTaskAndShowResult clientV2 results])

/-- What the delete command calls beyond the calls of `World`. -/
structure DeleteWorld extends World where
  /-- The call `flags.GetFirstArg(c, errorText)`: the first positional argument. -/
  GetFirstArg : String → Except GoError String
  /-- The call `DeleteOpts.Validate`. -/
  ValidateDelete : DeleteOpts → Option GoError
  /-- The call `instances.Delete(client, instanceID, opts).ExtractTasks()`. -/
  Delete : ServiceClient → String → DeleteOpts → Except GoError (List String)

/-- The package variable `instanceIDText`. -/
def instanceIDText : String := "instance_id is mandatory argument"

/-- The names of the flags `instanceDeleteCommand` declares itself, before
`flags.WaitCommandFlags`: two string-slice flags and one boolean flag. -/
def instanceDeleteCommandFlags : List String :=
  ["volume-id", "floating-ip", "delete-floating-ips"]

/-- The struct literal `instances.DeleteOpts{...}` of the delete action. -/
def deleteOpts (c : Context) : DeleteOpts :=
  { Volumes := c.StringSlice "volume-id"
    DeleteFloatings := c.Flag "delete-floating-ips"
    FloatingIPs := c.StringSlice "volume-id" }

/-- The `Action` of `instanceDeleteCommand`: the `error` it returns and the outside calls
it makes. -/
def instanceDeleteCommandAction (w : DeleteWorld) (c : Context) :
    Option GoError × List Effect :=
  match w.GetFirstArg instanceIDText with
  | .error err => (some err, [Effect.ShowCommandHelp "show"])
  | .ok instanceID =>
  match w.BuildClient "instances" "" "" with
  | .error err => (some (NewExitError err 1), [Effect.BuildClient "", Effect.ShowAppHelp])
  | .ok client =>
  let opts := deleteOpts c
  match w.TranslateValidationError (w.ValidateDelete opts) with
  | some err => (some (NewExitError err 1), [Effect.BuildClient ""])
  | none =>
  match w.Delete client instanceID opts with
  | .error err =>
    (some (NewExitError err 1), [Effect.BuildClient "", Effect.Delete client instanceID opts])
  | .ok results =>
    (w.WaitTaskAndShowResult client results false (deleteResolver w.toWorld client instanceID),
      [Effect.BuildClient "", Effect.Delete client instanceID opts,
        Effect.WaitTaskAndShowResult client results])

/-! ## `main.go` -/

/-- The interface `cli.Flag`, by the name of the flag. -/
structure CliFlag where
  Name : String
  deriving DecidableEq, Repr

/-- The `Before` hook of a command: the only hook `main.go` builds sets one flag of the
context to a value. -/
inductive BeforeFunc where
  | Set (name : String) (value : String)
  deriving DecidableEq, Repr

/-- The type `cli.Command`; a nil slice is the empty list, a nil hook is `none`, and
`Action` holds the name of the handler when there is one. -/
inductive Command where
  | mk (Name : String) (Aliases : List String) (Usage : String) (ArgsUsage : String)
      (Category : String) (Action : Option String) (Before : Option BeforeFunc)
      (Flags : List CliFlag) (Subcommands : List Command)

namespace Command

/-- The field `Name`. -/
def Name : Command → String
  | mk n _ _ _ _ _ _ _ _ => n

/-- The field `Usage`. -/
def Usage : Command → String
  | mk _ _ u _ _ _ _ _ _ => u

/-- The field `Flags`. -/
def Flags : Command → List CliFlag
  | mk _ _ _ _ _ _ _ f _ => f

/-- The field `Subcommands`. -/
def Subcommands : Command → List Command
  | mk _ _ _ _ _ _ _ _ s => s

/-- The field `Before`. -/
def Before : Command → Option BeforeFunc
  | mk _ _ _ _ _ _ b _ _ => b

end Command

/-- The variables of package `flags` that `main.go` reads; they are declared outside
`src/`. -/
structure FlagsPackage where
  TokenClientFlags : List CliFlag
  PasswordClientFlags : List CliFlag
  TokenClientHelpText : String
  PasswordClientHelpText : String

/-- The process environment: the value of a variable, when it is set. -/
abbrev Environ := String → Option String

/-- The call `os.Getenv`: the value of the variable, or the empty string when unset. -/
def Getenv (env : Environ) (key : String) : String :=
  (env key).getD ""

/-- The function `buildClientCommands`: the commands, the application flags (`none` is
nil) and the usage text. -/
def buildClientCommands (env : Environ) (flags : FlagsPackage) (commands : List Command) :
    List Command × Option (List CliFlag) × String :=
  let clientType := Getenv env "GCLOUD_CLIENT_TYPE"
  let tokenClientUsage := "GCloud API client\n" ++ flags.TokenClientHelpText
  let passwordClientUsage := "GCloud API client\n" ++ flags.PasswordClientHelpText
  if clientType = "client" then
    (commands, some flags.TokenClientFlags, tokenClientUsage)
  else if clientType = "password" then
    (commands, some flags.PasswordClientFlags, passwordClientUsage)
  else
    ([Command.mk "token" [] tokenClientUsage "" "" none none flags.TokenClientFlags commands,
      Command.mk "password" [] passwordClientUsage "" "" none
        (some (BeforeFunc.Set "client-type" "password")) flags.PasswordClientFlags commands],
      none, "")

/-! ## The zipping rule and error context, as the specification words them -/

/-- The record the zipping rule assigns to position `i` of the volume flags: the source at
`i`, and for every other flag the value at `i` when there is one and otherwise the
default (0, 0, "standard", and the empty string). -/
def zippedVolume (c : Context) (i : Nat) : CreateVolumeOpts :=
  { Source := ((c.Generic "volume-source")[i]?).getD ""
    BootIndex := ((c.IntSlice "volume-boot-index")[i]?).getD 0
    Size := ((c.IntSlice "volume-size")[i]?).getD 0
    TypeName := ((c.Generic "volume-type")[i]?).getD "standard"
    Name := ((c.StringSlice "volume-name")[i]?).getD ""
    ImageID := ((c.StringSlice "volume-image-id")[i]?).getD ""
    SnapshotID := ((c.StringSlice "volume-snapshot-id")[i]?).getD ""
    VolumeID := ((c.StringSlice "volume-volume-id")[i]?).getD "" }

/-- The record the zipping rule assigns to position `i` of the interface flags: the type
at `i`, the network and subnet identifiers at `i` or the empty string, and a floating-IP
sub-object exactly when the type at `i` is "subnet" and the floating source at `i` exists
and is not empty. -/
def zippedInterface (c : Context) (i : Nat) : CreateInterfaceOpts :=
  { Type_ := ((c.Generic "interface-type")[i]?).getD ""
    NetworkID := ((c.StringSlice "interface-network-id")[i]?).getD ""
    SubnetID := ((c.StringSlice "interface-subnet-id")[i]?).getD ""
    FloatingIP :=
      match (c.Generic "interface-floating-source")[i]? with
      | some src =>
        if (c.Generic "interface-type")[i]? = some "subnet" ∧ src ≠ "" then
          some { Source := src
                 ExistingFloatingID := ((c.StringSlice "interface-floating-ip")[i]?).getD "" }
        else none
      | none => none }

/-- A message names an identifier when the identifier occurs in it. -/
abbrev names (msg : String) (id : String) : Prop :=
  id.data <:+: msg.data

/-! ## Concrete inputs -/

/-- A command line with no flag given. -/
def noFlags : Context :=
  { Str := fun _ => ""
    StringSlice := fun _ => []
    IntSlice := fun _ => []
    Flag := fun _ => false
    Generic := fun _ => [] }

/-- A world in which every file read and every remote call fails with "not found", no
validator objects, and the task waiter returns nil. -/
def bareWorld : World :=
  { ReadFile := fun _ => .error (.plain "*os.PathError" "no such file or directory")
    BuildClient := fun _ _ version => .ok { Endpoint := version }
    ValidateVolume := fun _ => none
    ValidateInterface := fun _ => none
    ValidateCreate := fun _ => none
    TranslateValidationError := fun e => e
    StringSliceToMap := fun _ => .ok []
    Create := fun _ _ => .ok ["task-1"]
    TasksGet := fun _ _ => .error (.ErrDefault404 "task not found")
    ExtractInstanceIDFromTask := fun _ => .error (.plain "*errors.errorString" "no instance")
    InstancesGet := fun _ _ => .error (.ErrDefault404 "instance not found")
    VolumesGet := fun _ _ => .error (.ErrDefault404 "volume not found")
    WaitTaskAndShowResult := fun _ _ _ _ => none }

/-- The command line `--user-data-file cloud.yml --user-data inline`. -/
def bothUserData : Context :=
  { noFlags with
    Str := fun name =>
      if name = "user-data-file" then "cloud.yml"
      else if name = "user-data" then "inline" else "" }

/-- The command line `--user-data inline` alone. -/
def inlineUserData : Context :=
  { noFlags with Str := fun name => if name = "user-data" then "inline" else "" }

/-- A world whose file `cloud.yml` holds the three bytes of `Man`. -/
def fileWorld : World :=
  { bareWorld with
    ReadFile := fun path =>
      if path = "cloud.yml" then .ok [77, 97, 110]
      else .error (.plain "*os.PathError" "no such file or directory") }

/-- The command line `--security-group sg1`. -/
def oneSecurityGroup : Context :=
  { noFlags with
    StringSlice := fun name => if name = "security-group" then ["sg1"] else [] }

/-- The command line `--volume-source new-volume --volume-source image --volume-size 10 --volume-type ssd_hiiops
--volume-name root --interface-type subnet --interface-type external
--interface-floating-source new --flavor g1-small`: the auxiliary flags are shorter than
the two driving ones. -/
def twoOfEach : Context :=
  { noFlags with
    Str := fun name => if name = "flavor" then "g1-small" else ""
    Generic := fun name =>
      if name = "volume-source" then ["new-volume", "image"]
      else if name = "volume-type" then ["ssd_hiiops"]
      else if name = "interface-type" then ["subnet", "external"]
      else if name = "interface-floating-source" then ["new"]
      else []
    IntSlice := fun name => if name = "volume-size" then [10] else []
    StringSlice := fun name => if name = "volume-name" then ["root"] else [] }

/-- A world whose volume validator rejects a zero size. -/
def strictWorld : World :=
  { bareWorld with
    ValidateVolume := fun v =>
      if v.Size = 0 then some (.plain "validator.ValidationErrors" "Size is required")
      else none }

/-- A world where task `task-1` finished and created instance `inst-1`, which the instance
lookup finds; no volume has that identifier. -/
def instanceWorld : World :=
  { bareWorld with
    TasksGet := fun _ id => .ok { ID := id, State := "FINISHED" }
    ExtractInstanceIDFromTask := fun _ => .ok "inst-1"
    InstancesGet := fun _ id =>
      if id = "inst-1" then .ok { ID := "inst-1", Name := "vm" }
      else .error (.ErrDefault404 "instance not found") }

/-- A world where the task is found but carries no instance identifier. -/
def noInstanceWorld : World :=
  { bareWorld with TasksGet := fun _ id => .ok { ID := id, State := "FINISHED" } }

/-- The command line `--volume-id vol-1 --floating-ip 10.0.0.1` of the delete command. -/
def deleteFlags : Context :=
  { noFlags with
    StringSlice := fun name =>
      if name = "volume-id" then ["vol-1"]
      else if name = "floating-ip" then ["10.0.0.1"] else [] }

/-- A world for the delete command: the positional argument is `inst-1`, the request
validates and the delete call answers with one task. -/
def bareDeleteWorld : DeleteWorld :=
  { bareWorld with
    GetFirstArg := fun _ => .ok "inst-1"
    ValidateDelete := fun _ => none
    Delete := fun _ _ _ => .ok ["task-2"] }

/-- A `flags` package with one flag and one help text per client kind. -/
def demoFlags : FlagsPackage :=
  { TokenClientFlags := [{ Name := "api-token" }]
    PasswordClientFlags := [{ Name := "username" }, { Name := "password" }]
    TokenClientHelpText := "token help"
    PasswordClientHelpText := "password help" }

/-- Two top-level commands without flags or subcommands. -/
def demoCommands : List Command :=
  [Command.mk "network" [] "GCloud networks API" "" "" none none [] [],
    Command.mk "instance" [] "GCloud instances API" "" "" none none [] []]

/-- An environment in which `GCLOUD_CLIENT_TYPE` is `token` and nothing else is set. -/
def tokenEnv : Environ :=
  fun key => if key = "GCLOUD_CLIENT_TYPE" then some "token" else none

/-! ## Theorems -/

/-! ### User data -/

/-- The encoder agrees with the test vectors of RFC 4648, section 10. -/
theorem EncodeToString_rfc4648 :
    EncodeToString (bytesOf "") = "" ∧ EncodeToString (bytesOf "f") = "Zg==" ∧
    EncodeToString (bytesOf "fo") = "Zm8=" ∧ EncodeToString (bytesOf "foo") = "Zm9v" ∧
    EncodeToString (bytesOf "foob") = "Zm9vYg==" ∧
    EncodeToString (bytesOf "fooba") = "Zm9vYmE=" ∧
    EncodeToString (bytesOf "foobar") = "Zm9vYmFy" := by
  decide

/-- C1: when the `user-data-file` flag is non-empty and reading that file succeeds with
content `b`, `getUserData` returns the standard base64 encoding of `b` and a nil error,
and so does it on every command line with the same file flag, whatever the inline
`user-data` flag holds. -/
theorem getUserData_file_precedence (w : World) (c : Context) (b : List UInt8)
    (hfile : c.Str "user-data-file" ≠ "")
    (hread : w.ReadFile (c.Str "user-data-file") = .ok b) :
    (getUserData w c).1 = (EncodeToString b, none) ∧
    ∀ c2 : Context, c2.Str "user-data-file" = c.Str "user-data-file" →
      (getUserData w c2).1 = (EncodeToString b, none) := by
  have key : ∀ c2 : Context, c2.Str "user-data-file" = c.Str "user-data-file" →
      (getUserData w c2).1 = (EncodeToString b, none) := by
    intro c2 h2
    unfold getUserData
    simp only [h2, hfile, ne_eq, not_false_eq_true, if_true, hread]
  exact ⟨key c rfl, key⟩

/-- The file `cloud.yml` holding `Man` wins over `--user-data inline`: the payload is
`TWFu`. -/
theorem getUserData_file_precedence_witness :
    (getUserData fileWorld bothUserData).1 = ("TWFu", none) ∧
    ∀ c2 : Context, c2.Str "user-data-file" = "cloud.yml" →
      (getUserData fileWorld c2).1 = ("TWFu", none) :=
  getUserData_file_precedence fileWorld bothUserData [77, 97, 110] (by decide) rfl

/-- C8: when the `user-data-file` flag is empty, `getUserData` reads no file and returns
the standard base64 encoding of the inline `user-data` value with a nil error; with both
flags empty the payload is the empty string. -/
theorem getUserData_inline (w : World) (c : Context)
    (hfile : c.Str "user-data-file" = "") :
    getUserData w c = ((EncodeToString (bytesOf (c.Str "user-data")), none), []) ∧
    (c.Str "user-data" = "" → getUserData w c = (("", none), [])) := by
  have hempty : EncodeToString (bytesOf "") = "" := by decide
  unfold getUserData
  by_cases hdata : c.Str "user-data" = ""
  · simp [hfile, hdata, hempty]
  · simp [hfile, hdata]

/-- With `--user-data inline` alone the payload is `aW5saW5l` and no file is read. -/
theorem getUserData_inline_witness :
    getUserData bareWorld inlineUserData =
      ((EncodeToString (bytesOf "inline"), none), []) ∧
    (inlineUserData.Str "user-data" = "" →
      getUserData bareWorld inlineUserData = (("", none), [])) :=
  getUserData_inline bareWorld inlineUserData (by decide)

/-! ### Positional zipping -/

/-- Reading an integer slice by position with a default is an optional lookup. -/
theorem IntFromIndex_eq (xs : List Int) (i : Nat) (d : Int) :
    IntFromIndex xs i d = (xs[i]?).getD d := by
  unfold IntFromIndex
  by_cases h : i < xs.length
  · simp [h]
  · simp [h, List.getElem?_eq_none (Nat.le_of_not_lt h)]

/-- Reading a string slice by position with a default is an optional lookup. -/
theorem StringFromIndex_eq (xs : List String) (i : Nat) (d : String) :
    StringFromIndex xs i d = (xs[i]?).getD d := by
  unfold StringFromIndex
  by_cases h : i < xs.length
  · simp [h]
  · simp [h, List.getElem?_eq_none (Nat.le_of_not_lt h)]

/-- The guarded index of `volumeTypeName` never panics. -/
theorem volumeTypeName_eq (ts : List String) (i : Nat) :
    volumeTypeName ts i = .returned ((ts[i]?).getD "standard") := by
  unfold volumeTypeName goIndex
  by_cases h : i < ts.length
  · simp [h]
  · simp [h, List.getElem?_eq_none (Nat.le_of_not_lt h), Standard]

/-- One step of the volume loop, with the built record named. -/
theorem getInstanceVolumesLoop_cons (w : World) (c : Context) (s : String)
    (rest : List String) (idx : Nat) (res : List CreateVolumeOpts)
    (hs : (c.Generic "volume-source")[idx]? = some s) :
    getInstanceVolumesLoop w c (s :: rest) idx res =
      match w.TranslateValidationError (w.ValidateVolume (zippedVolume c idx)) with
      | some err => .returned ([], some err)
      | none => getInstanceVolumesLoop w c rest (idx + 1) (res ++ [zippedVolume c idx]) := by
  rw [getInstanceVolumesLoop]
  simp only [GetEnumStringSliceValue, volumeTypeName_eq, IntFromIndex_eq, StringFromIndex_eq]
  have hz : zippedVolume c idx =
      { Source := s
        BootIndex := ((c.IntSlice "volume-boot-index")[idx]?).getD 0
        Size := ((c.IntSlice "volume-size")[idx]?).getD 0
        TypeName := ((c.Generic "volume-type")[idx]?).getD "standard"
        Name := ((c.StringSlice "volume-name")[idx]?).getD ""
        ImageID := ((c.StringSlice "volume-image-id")[idx]?).getD ""
        SnapshotID := ((c.StringSlice "volume-snapshot-id")[idx]?).getD ""
        VolumeID := ((c.StringSlice "volume-volume-id")[idx]?).getD "" } := by
    simp [zippedVolume, hs]
  rw [hz]

/-- The volume loop from position `idx` on: either every remaining record passes and the
loop appends them all, or it stops at the first record that does not pass and returns
that record's error with a nil slice. -/
theorem getInstanceVolumesLoop_spec (w : World) (c : Context) :
    ∀ (rest : List String) (idx : Nat) (res : List CreateVolumeOpts),
      (c.Generic "volume-source").drop idx = rest →
      (getInstanceVolumesLoop w c rest idx res =
          .returned (res ++ (List.range' idx rest.length).map (zippedVolume c), none) ∧
        ∀ j, j < rest.length →
          w.TranslateValidationError (w.ValidateVolume (zippedVolume c (idx + j))) = none) ∨
      (∃ err j, j < rest.length ∧
        w.TranslateValidationError (w.ValidateVolume (zippedVolume c (idx + j))) = some err ∧
        getInstanceVolumesLoop w c rest idx res = .returned ([], some err)) := by
  intro rest
  induction rest with
  | nil =>
    intro idx res _
    left
    simp [getInstanceVolumesLoop]
  | cons s rest ih =>
    intro idx res hdrop
    have hs : (c.Generic "volume-source")[idx]? = some s := by
      have := congrArg List.head? hdrop
      simpa [List.head?_drop] using this
    have hdrop2 : (c.Generic "volume-source").drop (idx + 1) = rest := by
      have := congrArg List.tail hdrop
      simpa [List.tail_drop] using this
    rw [getInstanceVolumesLoop_cons w c s rest idx res hs]
    cases hv : w.TranslateValidationError (w.ValidateVolume (zippedVolume c idx)) with
    | some err =>
      right
      exact ⟨err, 0, by simp, by simpa using hv, rfl⟩
    | none =>
      rcases ih (idx + 1) (res ++ [zippedVolume c idx]) hdrop2 with ⟨heq, hall⟩ | ⟨err, j, hj, hje, heq⟩
      · left
        refine ⟨?_, ?_⟩
        · simp only [heq, List.length_cons, List.range'_succ, List.map_cons, List.append_assoc,
            List.singleton_append]
        · intro j hj
          cases j with
          | zero => simpa using hv
          | succ j =>
            have := hall j (by simpa using hj)
            rwa [show idx + (j + 1) = idx + 1 + j by omega]
      · right
        refine ⟨err, j + 1, by simpa using hj, ?_, heq⟩
        rwa [show idx + (j + 1) = idx + 1 + j by omega]

/-- One step of the interface loop, with the built record named. -/
theorem getInterfacesLoop_cons (w : World) (c : Context) (t : String)
    (rest : List String) (idx : Nat) (res : List CreateInterfaceOpts)
    (ht : (c.Generic "interface-type")[idx]? = some t) :
    getInterfacesLoop w c (t :: rest) idx res =
      match w.TranslateValidationError (w.ValidateInterface (zippedInterface c idx)) with
      | some err => ([], some err)
      | none => getInterfacesLoop w c rest (idx + 1) (res ++ [zippedInterface c idx]) := by
  rw [getInterfacesLoop]
  simp only [GetEnumStringSliceValue, StringFromIndex_eq]
  have hz : zippedInterface c idx =
      { Type_ := t
        NetworkID := ((c.StringSlice "interface-network-id")[idx]?).getD ""
        SubnetID := ((c.StringSlice "interface-subnet-id")[idx]?).getD ""
        FloatingIP :=
          if t = SubnetInterfaceType then
            if ((c.Generic "interface-floating-source")[idx]?).getD "" ≠ "" then
              some { Source := ((c.Generic "interface-floating-source")[idx]?).getD ""
                     ExistingFloatingID :=
                       ((c.StringSlice "interface-floating-ip")[idx]?).getD "" }
            else none
          else none } := by
    simp only [zippedInterface, ht, SubnetInterfaceType, Option.getD_some, Option.some.injEq]
    cases hsrc : (c.Generic "interface-floating-source")[idx]? with
    | none => simp
    | some src =>
      by_cases h1 : t = "subnet" <;> by_cases h2 : src = "" <;> simp [h1, h2]
  rw [hz]

/-- The interface loop from position `idx` on: either every remaining record passes and
the loop appends them all, or it stops at the first record that does not pass and
returns that record's error with a nil slice. -/
theorem getInterfacesLoop_spec (w : World) (c : Context) :
    ∀ (rest : List String) (idx : Nat) (res : List CreateInterfaceOpts),
      (c.Generic "interface-type").drop idx = rest →
      (getInterfacesLoop w c rest idx res =
          (res ++ (List.range' idx rest.length).map (zippedInterface c), none) ∧
        ∀ j, j < rest.length →
          w.TranslateValidationError (w.ValidateInterface (zippedInterface c (idx + j))) =
            none) ∨
      (∃ err j, j < rest.length ∧
        w.TranslateValidationError (w.ValidateInterface (zippedInterface c (idx + j))) =
          some err ∧
        getInterfacesLoop w c rest idx res = ([], some err)) := by
  intro rest
  induction rest with
  | nil =>
    intro idx res _
    left
    simp [getInterfacesLoop]
  | cons t rest ih =>
    intro idx res hdrop
    have ht : (c.Generic "interface-type")[idx]? = some t := by
      have := congrArg List.head? hdrop
      simpa [List.head?_drop] using this
    have hdrop2 : (c.Generic "interface-type").drop (idx + 1) = rest := by
      have := congrArg List.tail hdrop
      simpa [List.tail_drop] using this
    rw [getInterfacesLoop_cons w c t rest idx res ht]
    cases hv : w.TranslateValidationError (w.ValidateInterface (zippedInterface c idx)) with
    | some err =>
      right
      exact ⟨err, 0, by simp, by simpa using hv, rfl⟩
    | none =>
      rcases ih (idx + 1) (res ++ [zippedInterface c idx]) hdrop2 with
        ⟨heq, hall⟩ | ⟨err, j, hj, hje, heq⟩
      · left
        refine ⟨?_, ?_⟩
        · simp only [heq, List.length_cons, List.range'_succ, List.map_cons, List.append_assoc,
            List.singleton_append]
        · intro j hj
          cases j with
          | zero => simpa using hv
          | succ j =>
            have := hall j (by simpa using hj)
            rwa [show idx + (j + 1) = idx + 1 + j by omega]
      · right
        refine ⟨err, j + 1, by simpa using hj, ?_, heq⟩
        rwa [show idx + (j + 1) = idx + 1 + j by omega]

/-- The `i`-th entry of the zipped records. -/
theorem getElem?_map_range' {α : Type} (f : Nat → α) (n i : Nat) (h : i < n) :
    ((List.range' 0 n).map f)[i]? = some (f i) := by
  simp [List.getElem?_map, List.getElem?_range', h]

/-- C2: when every zipped volume record passes `Validate` (and the translation of a nil
validation error is nil), `getInstanceVolumes` returns without panic, with a nil error,
a list of as many records as there are `volume-source` values, whose `i`-th record has
the `i`-th source and, for every other flag, the value at `i` or the default. -/
theorem getInstanceVolumes_zips (w : World) (c : Context)
    (hnil : w.TranslateValidationError none = none)
    (hvalid : ∀ i, i < (c.Generic "volume-source").length →
      w.ValidateVolume (zippedVolume c i) = none) :
    ∃ res, getInstanceVolumes w c = .returned (res, none) ∧
      res.length = (c.Generic "volume-source").length ∧
      ∀ i, i < (c.Generic "volume-source").length →
        res[i]? = some (zippedVolume c i) ∧
        (res[i]?).map (fun r => r.Source) = (c.Generic "volume-source")[i]? := by
  unfold getInstanceVolumes GetEnumStringSliceValue
  rcases getInstanceVolumesLoop_spec w c (c.Generic "volume-source") 0 [] (by simp) with
    ⟨heq, _⟩ | ⟨err, j, hj, hje, _⟩
  · refine ⟨_, heq, by simp, ?_⟩
    intro i hi
    have hget : ([] ++ (List.range' 0 (c.Generic "volume-source").length).map
        (zippedVolume c))[i]? = some (zippedVolume c i) := by
      rw [List.nil_append]
      exact getElem?_map_range' _ _ _ hi
    refine ⟨hget, ?_⟩
    rw [hget]
    simp [zippedVolume, List.getElem?_eq_getElem hi]
  · rw [Nat.zero_add, hvalid j hj, hnil] at hje
    cases hje

/-- The two volume records built for `twoOfEach` in `bareWorld`. -/
theorem getInstanceVolumes_zips_witness :
    ∃ res, getInstanceVolumes bareWorld twoOfEach = .returned (res, none) ∧
      res.length = (twoOfEach.Generic "volume-source").length ∧
      ∀ i, i < (twoOfEach.Generic "volume-source").length →
        res[i]? = some (zippedVolume twoOfEach i) ∧
        (res[i]?).map (fun r => r.Source) = (twoOfEach.Generic "volume-source")[i]? :=
  getInstanceVolumes_zips bareWorld twoOfEach rfl (fun _ _ => rfl)

/-- The volume records of `twoOfEach`, evaluated: the second one takes every default. -/
theorem getInstanceVolumes_twoOfEach :
    getInstanceVolumes bareWorld twoOfEach = .returned
      ([{ Source := "new-volume", BootIndex := 0, Size := 10, TypeName := "ssd_hiiops",
          Name := "root", ImageID := "", SnapshotID := "", VolumeID := "" },
        { Source := "image", BootIndex := 0, Size := 0, TypeName := "standard",
          Name := "", ImageID := "", SnapshotID := "", VolumeID := "" }], none) := by
  decide

/-- C3: when every zipped interface record passes `Validate` (and the translation of a nil
validation error is nil), `getInterfaces` returns, with a nil error, as many records as
there are `interface-type` values; record `i` has a floating-IP sub-object if and only if
the type at `i` is the subnet type and the floating source at `i` exists and is not
empty; an attached sub-object has that source and the floating IP at `i` or the empty
string; otherwise the field is nil. -/
theorem getInterfaces_floating (w : World) (c : Context)
    (hnil : w.TranslateValidationError none = none)
    (hvalid : ∀ i, i < (c.Generic "interface-type").length →
      w.ValidateInterface (zippedInterface c i) = none) :
    ∃ res, getInterfaces w c = (res, none) ∧
      res.length = (c.Generic "interface-type").length ∧
      ∀ i, i < (c.Generic "interface-type").length →
        ∃ r, res[i]? = some r ∧
          (c.Generic "interface-type")[i]? = some r.Type_ ∧
          (r.FloatingIP.isSome = true ↔
            ((c.Generic "interface-type")[i]? = some SubnetInterfaceType ∧
              ∃ v, (c.Generic "interface-floating-source")[i]? = some v ∧ v ≠ "")) ∧
          (∀ f, r.FloatingIP = some f →
            (c.Generic "interface-floating-source")[i]? = some f.Source ∧
            f.ExistingFloatingID = ((c.StringSlice "interface-floating-ip")[i]?).getD "") ∧
          (¬ ((c.Generic "interface-type")[i]? = some SubnetInterfaceType ∧
              ∃ v, (c.Generic "interface-floating-source")[i]? = some v ∧ v ≠ "") →
            r.FloatingIP = none) := by
  unfold getInterfaces GetEnumStringSliceValue
  rcases getInterfacesLoop_spec w c (c.Generic "interface-type") 0 [] (by simp) with
    ⟨heq, _⟩ | ⟨err, j, hj, hje, _⟩
  · refine ⟨_, heq, by simp, ?_⟩
    intro i hi
    refine ⟨zippedInterface c i, ?_, ?_⟩
    · rw [List.nil_append]
      exact getElem?_map_range' _ _ _ hi
    · simp only [zippedInterface, SubnetInterfaceType, List.getElem?_eq_getElem hi,
        Option.getD_some, Option.some.injEq]
      cases hsrc : (c.Generic "interface-floating-source")[i]? with
      | none => simp
      | some src =>
        by_cases h1 : (c.Generic "interface-type")[i] = "subnet" <;>
          by_cases h2 : src = "" <;> simp [h1, h2]
  · rw [Nat.zero_add, hvalid j hj, hnil] at hje
    cases hje

/-- The two interface records built for `twoOfEach` in `bareWorld`. -/
theorem getInterfaces_floating_witness :
    ∃ res, getInterfaces bareWorld twoOfEach = (res, none) ∧
      res.length = (twoOfEach.Generic "interface-type").length ∧
      ∀ i, i < (twoOfEach.Generic "interface-type").length →
        ∃ r, res[i]? = some r ∧
          (twoOfEach.Generic "interface-type")[i]? = some r.Type_ ∧
          (r.FloatingIP.isSome = true ↔
            ((twoOfEach.Generic "interface-type")[i]? = some SubnetInterfaceType ∧
              ∃ v, (twoOfEach.Generic "interface-floating-source")[i]? = some v ∧ v ≠ "")) ∧
          (∀ f, r.FloatingIP = some f →
            (twoOfEach.Generic "interface-floating-source")[i]? = some f.Source ∧
            f.ExistingFloatingID =
              ((twoOfEach.StringSlice "interface-floating-ip")[i]?).getD "") ∧
          (¬ ((twoOfEach.Generic "interface-type")[i]? = some SubnetInterfaceType ∧
              ∃ v, (twoOfEach.Generic "interface-floating-source")[i]? = some v ∧ v ≠ "") →
            r.FloatingIP = none) :=
  getInterfaces_floating bareWorld twoOfEach rfl (fun _ _ => rfl)

/-- The interface records of `twoOfEach`, evaluated: the subnet interface has a
floating-IP sub-object, the external one has none. -/
theorem getInterfaces_twoOfEach :
    getInterfaces bareWorld twoOfEach =
      ([{ Type_ := "subnet", NetworkID := "", SubnetID := "",
          FloatingIP := some { Source := "new", ExistingFloatingID := "" } },
        { Type_ := "external", NetworkID := "", SubnetID := "", FloatingIP := none }],
        none) := by
  decide

/-! ### Resolvers -/

/-- C4: the delete resolver returns a nil result with a nil error if and only if its
lookup fails with `ErrDefault404`; when the lookup finds the resource it returns the
error "cannot delete instance with ID: ..."; when the lookup fails with any other error it
returns that error unchanged. -/
theorem deleteResolver_outcomes (w : World) (client : ServiceClient) (instanceID task : String) :
    (deleteResolver w client instanceID task = (none, none) ↔
      ∃ body, w.VolumesGet client instanceID = .error (.ErrDefault404 body)) ∧
    (∀ found, w.VolumesGet client instanceID = .ok found →
      deleteResolver w client instanceID task =
        (none, some (.plain "*errors.errorString"
          ("cannot delete instance with ID: " ++ instanceID)))) ∧
    (∀ err, w.VolumesGet client instanceID = .error err →
      (∀ body, err ≠ .ErrDefault404 body) →
      deleteResolver w client instanceID task = (none, some err)) := by
  unfold deleteResolver
  cases h : w.VolumesGet client instanceID with
  | ok found => simp
  | error err => cases err <;> simp

/-- C5, at task `task-1` of `instanceWorld`: the task finished and names instance `inst-1`,
which the instance lookup finds, yet the create resolver returns no record and the
error of the volume lookup. -/
theorem createResolver_looks_up_volume :
    instanceWorld.InstancesGet { Endpoint := "v2" } "inst-1" =
      .ok { ID := "inst-1", Name := "vm" } ∧
    createResolver instanceWorld { Endpoint := "v1" } { Endpoint := "v2" } "task-1" =
      (none, some (.wrapError "cannot get volume with ID: inst-1. Error: volume not found"
        (.ErrDefault404 "volume not found"))) := by
  constructor
  · rfl
  · decide

/-- Any record the create resolver returns is a volume record. -/
theorem createResolver_record_is_volume (w : World) (clientV1 clientV2 : ServiceClient)
    (task : String) (r : Resource) (e : Option GoError)
    (h : createResolver w clientV1 clientV2 task = (some r, e)) :
    ∃ info id v, w.TasksGet clientV1 task = .ok info ∧
      w.ExtractInstanceIDFromTask info = .ok id ∧
      w.VolumesGet clientV2 id = .ok v ∧ r = .ofVolume v := by
  unfold createResolver at h
  split at h
  · simp at h
  · rename_i info hinfo
    split at h
    · simp at h
    · rename_i id hid
      split at h
      · simp at h
      · rename_i v hv
        simp at h
        exact ⟨info, id, v, hinfo, hid, hv, h.1.symm⟩

/-- C7 as stated fails in two branches. When the resource identifier cannot be extracted
from task `task-1`, the returned message is "cannot retrieve volume ID from task info: no
instance"; when the fetch of the extracted resource `inst-1` fails, it is "cannot get
volume with ID: inst-1. Error: volume not found". Neither names the task. -/
theorem createResolver_error_omits_task :
    (createResolver noInstanceWorld { Endpoint := "v1" } { Endpoint := "v2" } "task-1" =
        (none, some (.wrapError "cannot retrieve volume ID from task info: no instance"
          (.plain "*errors.errorString" "no instance"))) ∧
      ¬ names "cannot retrieve volume ID from task info: no instance" "task-1") ∧
    (createResolver instanceWorld { Endpoint := "v1" } { Endpoint := "v2" } "task-1" =
        (none, some (.wrapError "cannot get volume with ID: inst-1. Error: volume not found"
          (.ErrDefault404 "volume not found"))) ∧
      ¬ names "cannot get volume with ID: inst-1. Error: volume not found" "task-1") := by
  refine ⟨⟨?_, ?_⟩, ⟨?_, ?_⟩⟩ <;> decide

/-- An identifier placed between two texts occurs in the whole. -/
theorem names_middle (pre id post : String) : names (pre ++ id ++ post) id := by
  unfold names
  simp only [String.data_append]
  exact ⟨pre.data, post.data, rfl⟩

/-- A text occurs in every message that ends with it. -/
theorem names_end (pre x : String) : names (pre ++ x) x := by
  unfold names
  simp only [String.data_append]
  exact ⟨pre.data, [], by simp⟩

/-- C7, amended: every failure branch of the create resolver returns a nil record and an
error that wraps the underlying cause and whose message contains the message of the
cause; the message names the task when the task status fetch fails, and names the
resource identifier when the resource fetch fails. -/
theorem createResolver_error_context (w : World) (clientV1 clientV2 : ServiceClient)
    (task : String) :
    (∀ cause, w.TasksGet clientV1 task = .error cause →
      ∃ e, createResolver w clientV1 clientV2 task = (none, some e) ∧
        e.Unwrap = some cause ∧ names e.Error cause.Error ∧ names e.Error task) ∧
    (∀ info cause, w.TasksGet clientV1 task = .ok info →
      w.ExtractInstanceIDFromTask info = .error cause →
      ∃ e, createResolver w clientV1 clientV2 task = (none, some e) ∧
        e.Unwrap = some cause ∧ names e.Error cause.Error) ∧
    (∀ info id cause, w.TasksGet clientV1 task = .ok info →
      w.ExtractInstanceIDFromTask info = .ok id →
      w.VolumesGet clientV2 id = .error cause →
      ∃ e, createResolver w clientV1 clientV2 task = (none, some e) ∧
        e.Unwrap = some cause ∧ names e.Error cause.Error ∧ names e.Error id) := by
  refine ⟨?_, ?_, ?_⟩
  · intro cause h
    refine ⟨.wrapError ("cannot get task with ID: " ++ task ++ ". Error: " ++ cause.Error) cause,
      by simp only [createResolver, h], rfl, names_end _ _, ?_⟩
    rw [GoError.Error, String.append_assoc]
    exact names_middle _ _ _
  · intro info cause h1 h2
    exact ⟨.wrapError ("cannot retrieve volume ID from task info: " ++ cause.Error) cause,
      by simp only [createResolver, h1, h2], rfl, names_end _ _⟩
  · intro info id cause h1 h2 h3
    refine ⟨.wrapError ("cannot get volume with ID: " ++ id ++ ". Error: " ++ cause.Error) cause,
      by simp only [createResolver, h1, h2, h3], rfl, names_end _ _, ?_⟩
    rw [GoError.Error, String.append_assoc]
    exact names_middle _ _ _

/-! ### The create action -/

/-- The only outside calls of `getUserData` are file reads. -/
theorem getUserData_effects (w : World) (c : Context) :
    ∀ e ∈ (getUserData w c).2, ∃ path, e = Effect.ReadFile path := by
  intro e he
  simp only [getUserData] at he
  split_ifs at he
  · split at he <;> simp at he <;> exact ⟨_, he⟩
  · simp at he
  · simp at he

/-- The volume loop never panics. -/
theorem getInstanceVolumes_returns (w : World) (c : Context) :
    ∃ r, getInstanceVolumes w c = .returned r := by
  unfold getInstanceVolumes GetEnumStringSliceValue
  rcases getInstanceVolumesLoop_spec w c (c.Generic "volume-source") 0 [] (by simp) with
    ⟨heq, _⟩ | ⟨err, j, _, _, heq⟩
  · exact ⟨_, heq⟩
  · exact ⟨_, heq⟩

/-- The ways the create action ends: with exit code 1 before any create call, or having
issued create calls only with the assembled request, after that request and every
record in it passed the translated validation. -/
theorem instanceCreateCommandV2Action_cases (w : World) (c : Context) :
    ((∃ e, (instanceCreateCommandV2Action w c).1 = .returned (some (NewExitError e 1))) ∧
      (∀ client opts, Effect.Create client opts ∉ (instanceCreateCommandV2Action w c).2)) ∨
    (∃ userData reads vols ifs md,
      getUserData w c = ((userData, none), reads) ∧
      getInstanceVolumes w c = .returned (vols, none) ∧
      getInterfaces w c = (ifs, none) ∧
      w.StringSliceToMap (c.StringSlice "metadata") = .ok md ∧
      w.TranslateValidationError
        (w.ValidateCreate (createOpts c userData vols ifs (getSecurityGroups c) md)) = none ∧
      ∀ client opts, Effect.Create client opts ∈ (instanceCreateCommandV2Action w c).2 →
        opts = createOpts c userData vols ifs (getSecurityGroups c) md) := by
  unfold instanceCreateCommandV2Action
  split
  · left; exact ⟨⟨_, rfl⟩, by simp⟩
  split
  · left; exact ⟨⟨_, rfl⟩, by simp⟩
  dsimp only
  split
  · rename_i reads err x hud
    left
    refine ⟨⟨_, rfl⟩, ?_⟩
    intro client opts hmem
    simp at hmem
    have := getUserData_effects w c _ (by rw [hud]; exact hmem)
    simp at this
  rename_i userData reads hud
  have hreads : ∀ client opts, Effect.Create client opts ∉ reads := by
    intro client opts hmem
    have := getUserData_effects w c _ (by rw [hud]; exact hmem)
    simp at this
  split
  · rename_i msg hv
    obtain ⟨r, hr⟩ := getInstanceVolumes_returns w c
    rw [hr] at hv
    cases hv
  · left
    refine ⟨⟨_, rfl⟩, ?_⟩
    intro client opts hmem
    simp at hmem
    exact hreads _ _ hmem
  rename_i vols hvols
  split
  · left
    refine ⟨⟨_, rfl⟩, ?_⟩
    intro client opts hmem
    simp at hmem
    exact hreads _ _ hmem
  rename_i ifs hifs
  split
  · left
    refine ⟨⟨_, rfl⟩, ?_⟩
    intro client opts hmem
    simp at hmem
    exact hreads _ _ hmem
  rename_i md hmd
  split
  · left
    refine ⟨⟨_, rfl⟩, ?_⟩
    intro client opts hmem
    simp at hmem
    exact hreads _ _ hmem
  rename_i hval
  right
  refine ⟨userData, reads, vols, ifs, md, hud, hvols, hifs, hmd, hval, ?_⟩
  intro client opts hmem
  split at hmem
  · simp at hmem
    rcases hmem with hmem | hmem
    · exact absurd hmem (hreads _ _)
    · exact hmem.2
  · simp at hmem
    rcases hmem with hmem | hmem
    · exact absurd hmem (hreads _ _)
    · exact hmem.2

/-- A nil-error return of `getInstanceVolumes` is the list of zipped records, each of
which passed the translated validation. -/
theorem getInstanceVolumes_ok (w : World) (c : Context) (vols : List CreateVolumeOpts)
    (h : getInstanceVolumes w c = .returned (vols, none)) :
    vols = (List.range' 0 (c.Generic "volume-source").length).map (zippedVolume c) ∧
    ∀ i, i < (c.Generic "volume-source").length →
      w.TranslateValidationError (w.ValidateVolume (zippedVolume c i)) = none := by
  unfold getInstanceVolumes GetEnumStringSliceValue at h
  rcases getInstanceVolumesLoop_spec w c (c.Generic "volume-source") 0 [] (by simp) with
    ⟨heq, hall⟩ | ⟨err, j, _, _, heq⟩
  · rw [heq] at h
    simp only [List.nil_append, Go.returned.injEq, Prod.mk.injEq, and_true] at h
    refine ⟨h.symm, ?_⟩
    intro i hi
    simpa using hall i hi
  · rw [heq] at h
    simp at h

/-- A nil-error return of `getInterfaces` is the list of zipped records, each of which
passed the translated validation. -/
theorem getInterfaces_ok (w : World) (c : Context) (ifs : List CreateInterfaceOpts)
    (h : getInterfaces w c = (ifs, none)) :
    ifs = (List.range' 0 (c.Generic "interface-type").length).map (zippedInterface c) ∧
    ∀ i, i < (c.Generic "interface-type").length →
      w.TranslateValidationError (w.ValidateInterface (zippedInterface c i)) = none := by
  unfold getInterfaces GetEnumStringSliceValue at h
  rcases getInterfacesLoop_spec w c (c.Generic "interface-type") 0 [] (by simp) with
    ⟨heq, hall⟩ | ⟨err, j, _, _, heq⟩
  · rw [heq] at h
    simp only [List.nil_append, Prod.mk.injEq, and_true] at h
    refine ⟨h.symm, ?_⟩
    intro i hi
    simpa using hall i hi
  · rw [heq] at h
    simp at h

/-- When a non-nil validation error stays non-nil under translation, a nil translated
error means the validator returned nil. -/
theorem validate_nil_of_translate_nil (w : World)
    (hsome : ∀ e, w.TranslateValidationError (some e) ≠ none) (x : Option GoError)
    (h : w.TranslateValidationError x = none) : x = none := by
  cases x with
  | none => rfl
  | some e => exact absurd h (hsome e)

/-- C6: provided the translation of a non-nil validation error is non-nil, every create
call the create action issues carries a request on which `Validate` returned nil, as did
`Validate` on each of its volume and interface records; and when `Validate` fails on some
zipped volume record, on some zipped interface record, or on the assembled request, the
action returns an exit error with code 1 and issues no create call. -/
theorem create_validation_gates_dispatch (w : World) (c : Context)
    (hsome : ∀ e, w.TranslateValidationError (some e) ≠ none) :
    (∀ client opts, Effect.Create client opts ∈ (instanceCreateCommandV2Action w c).2 →
      w.ValidateCreate opts = none ∧
      (∀ v ∈ opts.Volumes, w.ValidateVolume v = none) ∧
      (∀ i ∈ opts.Interfaces, w.ValidateInterface i = none)) ∧
    (((∃ i, i < (c.Generic "volume-source").length ∧
          w.ValidateVolume (zippedVolume c i) ≠ none) ∨
      (∃ i, i < (c.Generic "interface-type").length ∧
          w.ValidateInterface (zippedInterface c i) ≠ none) ∨
      (∃ userData reads vols ifs md,
          getUserData w c = ((userData, none), reads) ∧
          getInstanceVolumes w c = .returned (vols, none) ∧
          getInterfaces w c = (ifs, none) ∧
          w.StringSliceToMap (c.StringSlice "metadata") = .ok md ∧
          w.ValidateCreate (createOpts c userData vols ifs (getSecurityGroups c) md) ≠ none)) →
      (∃ e, (instanceCreateCommandV2Action w c).1 = .returned (some (NewExitError e 1))) ∧
      ∀ client opts, Effect.Create client opts ∉ (instanceCreateCommandV2Action w c).2) := by
  rcases instanceCreateCommandV2Action_cases w c with
    ⟨hexit, hnone⟩ | ⟨userData, reads, vols, ifs, md, hud, hvols, hifs, hmd, hval, honly⟩
  · refine ⟨?_, fun _ => ⟨hexit, hnone⟩⟩
    intro client opts hmem
    exact absurd hmem (hnone client opts)
  · obtain ⟨hvolsEq, hvolsAll⟩ := getInstanceVolumes_ok w c vols hvols
    obtain ⟨hifsEq, hifsAll⟩ := getInterfaces_ok w c ifs hifs
    refine ⟨?_, ?_⟩
    · intro client opts hmem
      rw [honly client opts hmem]
      refine ⟨validate_nil_of_translate_nil w hsome _ hval, ?_, ?_⟩
      · intro v hv
        simp only [createOpts, hvolsEq, List.mem_map, List.mem_range'_1] at hv
        obtain ⟨i, ⟨_, hi⟩, rfl⟩ := hv
        exact validate_nil_of_translate_nil w hsome _ (hvolsAll i (by omega))
      · intro v hv
        simp only [createOpts, hifsEq, List.mem_map, List.mem_range'_1] at hv
        obtain ⟨i, ⟨_, hi⟩, rfl⟩ := hv
        exact validate_nil_of_translate_nil w hsome _ (hifsAll i (by omega))
    · intro hfail
      exfalso
      rcases hfail with ⟨i, hi, hne⟩ | ⟨i, hi, hne⟩ | ⟨u2, r2, v2, i2, m2, hud2, hv2, hi2, hm2, hne⟩
      · exact hne (validate_nil_of_translate_nil w hsome _ (hvolsAll i hi))
      · exact hne (validate_nil_of_translate_nil w hsome _ (hifsAll i hi))
      · rw [hud] at hud2
        rw [hvols] at hv2
        rw [hifs] at hi2
        rw [hmd] at hm2
        simp only [Prod.mk.injEq, and_true, Go.returned.injEq, Except.ok.injEq] at hud2 hv2 hi2 hm2
        obtain ⟨hu, _⟩ := hud2
        subst hu hv2 hi2 hm2
        exact hne (validate_nil_of_translate_nil w hsome _ hval)

/-- In `strictWorld` the second volume of `twoOfEach` has no size, so the create action
exits with code 1 and issues no create call. -/
theorem create_validation_gates_dispatch_witness :
    (∃ e, (instanceCreateCommandV2Action strictWorld twoOfEach).1 =
      .returned (some (NewExitError e 1))) ∧
    ∀ client opts,
      Effect.Create client opts ∉ (instanceCreateCommandV2Action strictWorld twoOfEach).2 :=
  (create_validation_gates_dispatch strictWorld twoOfEach (fun _ h => nomatch h)).2
    (Or.inl ⟨1, by decide, by decide⟩)

/-- C9: when the `user-data-file` flag is non-empty and reading that file fails with `e`,
`getUserData` returns the empty string together with `e`, whatever the inline flag holds;
the create action then returns an exit error with code 1, which carries `e` once both
clients are built, and issues no create call. -/
theorem getUserData_read_failure (w : World) (c : Context) (e : GoError)
    (hfile : c.Str "user-data-file" ≠ "")
    (hread : w.ReadFile (c.Str "user-data-file") = .error e) :
    (getUserData w c).1 = ("", some e) ∧
    (∃ x, (instanceCreateCommandV2Action w c).1 = .returned (some (NewExitError x 1))) ∧
    (∀ client opts, Effect.Create client opts ∉ (instanceCreateCommandV2Action w c).2) ∧
    (∀ clientV1 clientV2, w.BuildClient "instances" "" "v2" = .ok clientV2 →
      w.BuildClient "instances" "" "v1" = .ok clientV1 →
      instanceCreateCommandV2Action w c =
        (.returned (some (NewExitError e 1)),
          [Effect.BuildClient "v2", Effect.BuildClient "v1",
            Effect.ReadFile (c.Str "user-data-file"), Effect.ShowCommandHelp "create"])) := by
  have hud : getUserData w c = (("", some e), [Effect.ReadFile (c.Str "user-data-file")]) := by
    unfold getUserData
    simp only [hfile, ne_eq, not_false_eq_true, if_true, hread]
  refine ⟨by rw [hud], ?_, ?_, ?_⟩
  · rcases instanceCreateCommandV2Action_cases w c with
      ⟨hexit, _⟩ | ⟨userData, reads, _, _, _, hud2, _⟩
    · exact hexit
    · rw [hud] at hud2
      simp at hud2
  · rcases instanceCreateCommandV2Action_cases w c with
      ⟨_, hnone⟩ | ⟨userData, reads, _, _, _, hud2, _⟩
    · exact hnone
    · rw [hud] at hud2
      simp at hud2
  · intro clientV1 clientV2 h2 h1
    unfold instanceCreateCommandV2Action
    simp only [h2, h1, hud]
    rfl

/-- The file named by `bothUserData` does not exist in `bareWorld`: the create action
stops with exit code 1 right after the failed read. -/
theorem getUserData_read_failure_witness :
    (getUserData bareWorld bothUserData).1 =
      ("", some (.plain "*os.PathError" "no such file or directory")) ∧
    (∃ x, (instanceCreateCommandV2Action bareWorld bothUserData).1 =
      .returned (some (NewExitError x 1))) ∧
    (∀ client opts,
      Effect.Create client opts ∉ (instanceCreateCommandV2Action bareWorld bothUserData).2) ∧
    (∀ clientV1 clientV2, bareWorld.BuildClient "instances" "" "v2" = .ok clientV2 →
      bareWorld.BuildClient "instances" "" "v1" = .ok clientV1 →
      instanceCreateCommandV2Action bareWorld bothUserData =
        (.returned (some (NewExitError (.plain "*os.PathError" "no such file or directory") 1)),
          [Effect.BuildClient "v2", Effect.BuildClient "v1",
            Effect.ReadFile (bothUserData.Str "user-data-file"),
            Effect.ShowCommandHelp "create"])) :=
  getUserData_read_failure bareWorld bothUserData _ (by decide) rfl

/-! ### Security groups -/

/-- Appending the record of each value in turn appends the mapped list. -/
theorem foldl_append_itemID (xs : List String) (init : List ItemID) :
    xs.foldl (fun res s => res ++ [({ ID := s } : ItemID)]) init =
      init ++ xs.map (fun s => ({ ID := s } : ItemID)) := by
  induction xs generalizing init with
  | nil => simp
  | cons x xs ih => simp [List.foldl_cons, ih]

/-- What `getSecurityGroups` returns for `n` flag values: `n` records with an empty `ID`
followed by one record per flag value. -/
theorem getSecurityGroups_eq (c : Context) :
    getSecurityGroups c =
      List.replicate (c.StringSlice "security-group").length ({ ID := "" } : ItemID) ++
        (c.StringSlice "security-group").map (fun s => ({ ID := s } : ItemID)) := by
  unfold getSecurityGroups
  exact foldl_append_itemID _ _

/-- C10, at the input `--security-group sg1`: the code returns two records, an empty-ID
record followed by the record of `sg1`, not the single record of `sg1`. -/
theorem getSecurityGroups_one_flag :
    getSecurityGroups oneSecurityGroup = [{ ID := "" }, { ID := "sg1" }] ∧
    (getSecurityGroups oneSecurityGroup).length ≠
      (oneSecurityGroup.StringSlice "security-group").length := by
  decide

/-! ### The delete request -/

/-- The `FloatingIPs` field of the delete request is read from the `volume-id` flag. -/
theorem deleteOpts_fields (c : Context) :
    (deleteOpts c).Volumes = c.StringSlice "volume-id" ∧
    (deleteOpts c).DeleteFloatings = c.Flag "delete-floating-ips" ∧
    (deleteOpts c).FloatingIPs = c.StringSlice "volume-id" := by
  exact ⟨rfl, rfl, rfl⟩

/-- C11, at the input `--volume-id vol-1 --floating-ip 10.0.0.1`: the command declares the
`floating-ip` flag, whose value here is `10.0.0.1`, yet the request it builds and submits
has `FloatingIPs` equal to the `volume-id` values, `vol-1`. -/
theorem deleteOpts_floating_from_volume_id :
    "floating-ip" ∈ instanceDeleteCommandFlags ∧
    deleteFlags.StringSlice "floating-ip" = ["10.0.0.1"] ∧
    deleteOpts deleteFlags =
      { Volumes := ["vol-1"], DeleteFloatings := false, FloatingIPs := ["vol-1"] } ∧
    (deleteOpts deleteFlags).FloatingIPs ≠ deleteFlags.StringSlice "floating-ip" ∧
    (instanceDeleteCommandAction bareDeleteWorld deleteFlags).2 =
      [Effect.BuildClient "",
        Effect.Delete { Endpoint := "" } "inst-1"
          { Volumes := ["vol-1"], DeleteFloatings := false, FloatingIPs := ["vol-1"] },
        Effect.WaitTaskAndShowResult { Endpoint := "" } ["task-2"]] := by
  refine ⟨?_, ?_, ?_, ?_, ?_⟩ <;> decide

/-! ### Client commands -/

/-- C12: when `GCLOUD_CLIENT_TYPE` is `client`, `buildClientCommands` returns the commands
unchanged with the token client flags and the token usage text; when it is `password`,
the commands unchanged with the password client flags and the password usage text; for
every other value, and when the variable is unset, exactly the two wrapper commands
`token` and `password`, in that order, each with the given commands as subcommands and
its own client flags and usage text, together with nil application flags and an empty
usage text. -/
theorem buildClientCommands_dispatch (env : Environ) (flags : FlagsPackage)
    (cs : List Command) :
    (Getenv env "GCLOUD_CLIENT_TYPE" = "client" →
      buildClientCommands env flags cs =
        (cs, some flags.TokenClientFlags,
          "GCloud API client\n" ++ flags.TokenClientHelpText)) ∧
    (Getenv env "GCLOUD_CLIENT_TYPE" = "password" →
      buildClientCommands env flags cs =
        (cs, some flags.PasswordClientFlags,
          "GCloud API client\n" ++ flags.PasswordClientHelpText)) ∧
    ((env "GCLOUD_CLIENT_TYPE" = none ∨
        (Getenv env "GCLOUD_CLIENT_TYPE" ≠ "client" ∧
          Getenv env "GCLOUD_CLIENT_TYPE" ≠ "password")) →
      ∃ token password,
        buildClientCommands env flags cs = ([token, password], none, "") ∧
        token.Name = "token" ∧ password.Name = "password" ∧
        token.Subcommands = cs ∧ password.Subcommands = cs ∧
        token.Flags = flags.TokenClientFlags ∧
        password.Flags = flags.PasswordClientFlags ∧
        token.Usage = "GCloud API client\n" ++ flags.TokenClientHelpText ∧
        password.Usage = "GCloud API client\n" ++ flags.PasswordClientHelpText ∧
        token.Before = none ∧
        password.Before = some (BeforeFunc.Set "client-type" "password")) := by
  refine ⟨?_, ?_, ?_⟩
  · intro h
    simp only [buildClientCommands, h, if_true]
  · intro h
    have hne : ¬ ("password" = "client") := by decide
    simp only [buildClientCommands, h, hne, if_false, if_true]
  · intro h
    have hboth : Getenv env "GCLOUD_CLIENT_TYPE" ≠ "client" ∧
        Getenv env "GCLOUD_CLIENT_TYPE" ≠ "password" := by
      rcases h with h | h
      · have he : Getenv env "GCLOUD_CLIENT_TYPE" = "" := by
          simp only [Getenv, h, Option.getD_none]
        rw [he]
        exact ⟨by decide, by decide⟩
      · exact h
    refine ⟨Command.mk "token" [] ("GCloud API client\n" ++ flags.TokenClientHelpText) "" ""
        none none flags.TokenClientFlags cs,
      Command.mk "password" [] ("GCloud API client\n" ++ flags.PasswordClientHelpText) "" ""
        none (some (BeforeFunc.Set "client-type" "password")) flags.PasswordClientFlags cs,
      ?_, rfl, rfl, rfl, rfl, rfl, rfl, rfl, rfl, rfl, rfl⟩
    simp only [buildClientCommands, hboth.1, hboth.2, if_false]

/-- With `GCLOUD_CLIENT_TYPE=token` the two wrappers are built around the commands. -/
theorem buildClientCommands_tokenEnv :
    buildClientCommands tokenEnv demoFlags demoCommands =
      ([Command.mk "token" [] "GCloud API client\ntoken help" "" "" none none
          [{ Name := "api-token" }] demoCommands,
        Command.mk "password" [] "GCloud API client\npassword help" "" "" none
          (some (BeforeFunc.Set "client-type" "password"))
          [{ Name := "username" }, { Name := "password" }] demoCommands],
        none, "") := by
  have h1 : Getenv tokenEnv "GCLOUD_CLIENT_TYPE" ≠ "client" := by decide
  have h2 : Getenv tokenEnv "GCLOUD_CLIENT_TYPE" ≠ "password" := by decide
  simp only [buildClientCommands, h1, h2, if_false]
  rfl

end Gcore
